import Mathlib

/-!
Verification development for the two maintenance scripts of this repository:
`Scripts/apply_design_system.py` (a batch text rewriter over Swift source
files) and `fix_icon_alpha.py` (an image alpha-channel flattener).

The rewriter is embedded shallowly: file contents are `String`s (worked on as
`List Char`), the regular-expression patterns of the rule tables are embedded
as sequences of pattern items (literal character, character class, starred
character class), and `re.sub` is embedded as a left-to-right scan that
replaces each non-overlapping leftmost match, matching the semantics of the
Python `re` module on the patterns that actually occur in the tables.
-/

/-- Character equality decided through the numeric code, which the kernel
evaluates quickly; it takes priority over the core instance so that every
decidable equality built in this file (characters, character lists, rules)
reduces fast under `decide`. -/
instance (priority := 2000) charDecEqFast : DecidableEq Char :=
  fun a b =>
    decidable_of_iff (a.toNat = b.toNat)
      ⟨fun h => Char.eq_of_val_eq (UInt32.ext h), fun h => congrArg Char.toNat h⟩

/-- Boolean test that `p` is a leading segment of `s`. -/
def listHasPref : List Char → List Char → Bool
  | [], _ => true
  | _ :: _, [] => false
  | c :: p, d :: s => c == d && listHasPref p s

/-- Boolean test that the segment `p` occurs somewhere inside `s`
(the embedding of the Python substring test `p in s`). -/
def containsSeg (p : List Char) : List Char → Bool
  | [] => p.isEmpty
  | d :: s => listHasPref p (d :: s) || containsSeg p s

/-- String form of `containsSeg`: the Python test `pat in s`. -/
def containsStr (s pat : String) : Bool :=
  containsSeg pat.data s.data

/-- If `p` is a leading segment of `s`, return the remainder of `s` after it. -/
def stripSeg : List Char → List Char → Option (List Char)
  | [], s => some s
  | _ :: _, [] => none
  | c :: p, d :: s => if c == d then stripSeg p s else none

/-- Replace the first occurrence of the (nonempty) segment `pat` by `rep`:
the embedding of the Python call `s.replace(pat, rep, 1)`. -/
def replaceFirst (pat rep : List Char) : List Char → List Char
  | [] => []
  | d :: s =>
    match stripSeg pat (d :: s) with
    | some rest => rep ++ rest
    | none => d :: replaceFirst pat rep s

/-- Boolean test that `p` is a trailing segment of `s`
(the embedding of the Python test `s.endswith(p)`). -/
def listEndsWith (p s : List Char) : Bool :=
  listHasPref p.reverse s.reverse

/-- String form of `listEndsWith`. -/
def strEndsWith (s p : String) : Bool :=
  listEndsWith p.data s.data

/-- One item of an embedded regular expression: a literal character, a
character class such as `[678]`, or a starred character class such as
`\d*` or `\s*`. These are the only constructs used by the rule tables of
`apply_design_system.py`. -/
inductive RItem where
  | lit (c : Char)
  | cls (cs : List Char)
  | star (cs : List Char)
deriving DecidableEq, Repr

/-- The characters matched by the Python class `\d`. -/
def digitChars : List Char := "0123456789".data

/-- The ASCII characters matched by the Python class `\s`. -/
def wsChars : List Char := " \t\n\r\x0b\x0c".data

/-- The embedded pattern consisting of the literal characters of `s`. -/
def litPat (s : String) : List RItem :=
  s.data.map RItem.lit

/-- Match a starred character class `cs*` against a leading part of the text,
greedily with one-character backtracking as the Python `re` engine does, and
match the rest of the pattern via the continuation `k`. -/
def matchStarAux (k : List Char → Option (List Char)) (cs : List Char) :
    List Char → Option (List Char)
  | [] => k []
  | d :: s =>
    if cs.contains d then
      match matchStarAux k cs s with
      | some rest => some rest
      | none => k (d :: s)
    else k (d :: s)

/-- Match the pattern items `ps` against a leading part of `s`; on success
return the remaining suffix of `s`. -/
def matchItems : List RItem → List Char → Option (List Char)
  | [], s => some s
  | RItem.lit c :: ps, s =>
    match s with
    | [] => none
    | d :: s => if d == c then matchItems ps s else none
  | RItem.cls cs :: ps, s =>
    match s with
    | [] => none
    | d :: s => if cs.contains d then matchItems ps s else none
  | RItem.star cs :: ps, s => matchStarAux (matchItems ps) cs s

/-- Boolean test that the pattern `ps` matches at some position of `s`. -/
def matchesSomewhere (ps : List RItem) : List Char → Bool
  | [] => (matchItems ps []).isSome
  | d :: s => (matchItems ps (d :: s)).isSome || matchesSomewhere ps s

/-- Fueled worker for the embedding of `re.sub`: scan the text left to right,
replacing each leftmost non-overlapping match and continuing after it. The
fuel only serves structural termination; one unit is spent per consumed
character, so fuel equal to the length of the text is always enough. A match
that consumes nothing (impossible for the patterns of the rule tables, which
all start with a literal character) is skipped by emitting one character. -/
def subAllFuel (p : List RItem) (r : List Char) : Nat → List Char → List Char
  | _, [] => []
  | 0, s => s
  | fuel + 1, d :: s =>
    match matchItems p (d :: s) with
    | some rest =>
      if rest.length ≤ s.length then r ++ subAllFuel p r fuel rest
      else d :: subAllFuel p r fuel s
    | none => d :: subAllFuel p r fuel s

/-- The embedding of `re.sub(p, r, s)`. -/
def subAll (p : List RItem) (r : List Char) (s : List Char) : List Char :=
  subAllFuel p r s.length s

/-- A rewriting rule: an embedded pattern and its replacement text. -/
abbrev Rule := List RItem × String

/-- COLOR_REPLACEMENTS of `apply_design_system.py`. -/
def COLOR_REPLACEMENTS : List Rule := [
  (litPat "Color(red: 1.0, green: 0.55, blue: 0.26)", "DesignSystem.Colors.primaryAccent"),
  (litPat "Color(red: 0.11, green: 0.105, blue: 0.102)", "DesignSystem.Colors.surfaceBackground"),
  (litPat ".white.opacity(0.7" ++ [RItem.star digitChars] ++ litPat ")", "DesignSystem.Colors.textSecondary"),
  (litPat ".white.opacity(0.5" ++ [RItem.star digitChars] ++ litPat ")", "DesignSystem.Colors.textTertiary"),
  (litPat ".white.opacity(0.3" ++ [RItem.star digitChars] ++ litPat ")", "DesignSystem.Colors.textQuaternary"),
  (litPat "Color.white.opacity(0.7" ++ [RItem.star digitChars] ++ litPat ")", "DesignSystem.Colors.textSecondary"),
  (litPat "Color.white.opacity(0.5" ++ [RItem.star digitChars] ++ litPat ")", "DesignSystem.Colors.textTertiary"),
  (litPat "Color.white.opacity(0.3" ++ [RItem.star digitChars] ++ litPat ")", "DesignSystem.Colors.textQuaternary")
]

/-- One row of the opacity table: the literal pattern `.opacity(a)` and the
replacement `.opacity(b)`. -/
def opRule (a b : String) : Rule :=
  (litPat (".opacity(" ++ a ++ ")"), ".opacity(" ++ b ++ ")")

/-- OPACITY_REPLACEMENTS of `apply_design_system.py`, row for row. -/
def OPACITY_REPLACEMENTS : List Rule := [
  opRule "0.03" "0.05", opRule "0.04" "0.05", opRule "0.06" "0.05", opRule "0.07" "0.05",
  opRule "0.08" "0.10", opRule "0.09" "0.10", opRule "0.12" "0.10",
  opRule "0.13" "0.15", opRule "0.14" "0.15", opRule "0.16" "0.15", opRule "0.17" "0.15",
  opRule "0.18" "0.20", opRule "0.19" "0.20", opRule "0.22" "0.20",
  opRule "0.23" "0.25", opRule "0.24" "0.25", opRule "0.26" "0.25", opRule "0.27" "0.25",
  opRule "0.28" "0.30", opRule "0.29" "0.30", opRule "0.32" "0.30",
  opRule "0.33" "0.35", opRule "0.34" "0.35", opRule "0.36" "0.35", opRule "0.37" "0.35",
  opRule "0.38" "0.40", opRule "0.39" "0.40", opRule "0.42" "0.40",
  opRule "0.43" "0.45", opRule "0.44" "0.45", opRule "0.46" "0.45", opRule "0.47" "0.45",
  opRule "0.48" "0.50", opRule "0.49" "0.50", opRule "0.52" "0.50",
  opRule "0.53" "0.55", opRule "0.54" "0.55", opRule "0.56" "0.55", opRule "0.57" "0.55",
  opRule "0.58" "0.60", opRule "0.59" "0.60", opRule "0.62" "0.60",
  opRule "0.63" "0.65", opRule "0.64" "0.65", opRule "0.66" "0.65", opRule "0.67" "0.65",
  opRule "0.68" "0.70", opRule "0.69" "0.70", opRule "0.72" "0.70",
  opRule "0.73" "0.75", opRule "0.74" "0.75", opRule "0.76" "0.75", opRule "0.77" "0.75",
  opRule "0.78" "0.80", opRule "0.79" "0.80", opRule "0.82" "0.80",
  opRule "0.83" "0.85", opRule "0.84" "0.85", opRule "0.86" "0.85", opRule "0.87" "0.85",
  opRule "0.88" "0.90", opRule "0.89" "0.90", opRule "0.92" "0.90",
  opRule "0.93" "0.95", opRule "0.94" "0.95", opRule "0.96" "0.95", opRule "0.97" "0.95",
  opRule "0.98" "1.0", opRule "0.99" "1.0"
]

/-- One row of the corner-radius table: the pattern `cornerRadius:\s*n`. -/
def crRule (n tgt : String) : Rule :=
  (litPat "cornerRadius:" ++ [RItem.star wsChars] ++ litPat n,
   "cornerRadius: DesignSystem.CornerRadius." ++ tgt)

/-- CORNER_RADIUS_REPLACEMENTS of `apply_design_system.py`. -/
def CORNER_RADIUS_REPLACEMENTS : List Rule := [
  crRule "14" "card", crRule "16" "card", crRule "18" "card",
  crRule "20" "large",
  crRule "10" "medium", crRule "12" "medium",
  crRule "8" "small", crRule "6" "small"
]

/-- ANIMATION_REPLACEMENTS of `apply_design_system.py`. The pattern
`\.spring\(response:\s*A,\s*dampingFraction:\s*B\)` is built from its literal
parts and the whitespace stars; the damping-fraction part `B` is passed as
pattern items, since some rows end it with a character class and one row is
fully literal. -/
def springPat (resp : String) (frac : List RItem) : List RItem :=
  litPat ".spring(response:" ++ [RItem.star wsChars] ++ litPat (resp ++ ",") ++
  [RItem.star wsChars] ++ litPat "dampingFraction:" ++ [RItem.star wsChars] ++
  frac ++ litPat ")"

/-- The animation table, row for row. -/
def ANIMATION_REPLACEMENTS : List Rule := [
  (springPat "0.3" (litPat "0." ++ [RItem.cls ['6', '7', '8']]), "DesignSystem.Animation.springStandard"),
  (springPat "0.3" (litPat "0.8"), "DesignSystem.Animation.springStandard"),
  (springPat "0.4" (litPat "0.8" ++ [RItem.cls ['0', '5']]), "DesignSystem.Animation.springSmooth"),
  (springPat "0.2" (litPat "0." ++ [RItem.cls ['7', '8']]), "DesignSystem.Animation.springQuick"),
  (litPat ".easeInOut(duration:" ++ [RItem.star wsChars] ++ litPat "0.2)", "DesignSystem.Animation.easeQuick"),
  (litPat ".easeInOut(duration:" ++ [RItem.star wsChars] ++ litPat "0.3)", "DesignSystem.Animation.easeStandard")
]

/-- HAPTIC_REPLACEMENTS of `apply_design_system.py`. -/
def HAPTIC_REPLACEMENTS : List Rule := [
  (litPat "HapticManager.shared.lightTap()", "DesignSystem.HapticFeedback.light()"),
  (litPat "HapticManager.shared.mediumTap()", "DesignSystem.HapticFeedback.medium()"),
  (litPat "HapticManager.shared.success()", "DesignSystem.HapticFeedback.success()"),
  (litPat "HapticManager.shared.warning()", "DesignSystem.HapticFeedback.warning()"),
  (litPat "HapticManager.shared.selectionChanged()", "DesignSystem.HapticFeedback.selection()")
]

/-- PADDING_REPLACEMENTS of `apply_design_system.py`. -/
def PADDING_REPLACEMENTS : List Rule := [
  (litPat ".padding(24)", ".padding(DesignSystem.Spacing.cardPadding)"),
  (litPat ".padding(16)", ".padding(DesignSystem.Spacing.inlinePadding)"),
  (litPat ".padding(20)", ".padding(DesignSystem.Spacing.listItemPadding)"),
  (litPat ".padding(.horizontal," ++ [RItem.star wsChars] ++ litPat "24)",
   ".padding(.horizontal, DesignSystem.Spacing.cardPadding)"),
  (litPat ".padding(.horizontal," ++ [RItem.star wsChars] ++ litPat "16)",
   ".padding(.horizontal, DesignSystem.Spacing.inlinePadding)"),
  (litPat ".padding(.horizontal," ++ [RItem.star wsChars] ++ litPat "20)",
   ".padding(.horizontal, DesignSystem.Spacing.listItemPadding)")
]

/-- The six tables in the order `process_file` applies them. -/
def ALL_TABLES : List (List Rule) := [
  COLOR_REPLACEMENTS, OPACITY_REPLACEMENTS, CORNER_RADIUS_REPLACEMENTS,
  ANIMATION_REPLACEMENTS, HAPTIC_REPLACEMENTS, PADDING_REPLACEMENTS
]

/-- All rules of all tables, in application order. -/
def ALL_RULES : List Rule := ALL_TABLES.flatten

/-- Apply the rules of one table in order, each by `re.sub` over the whole
text. -/
def applyRules (rules : List Rule) (s : List Char) : List Char :=
  rules.foldl (fun acc pr => subAll pr.1 pr.2.data acc) s

/-- Apply the six tables in order: the full replacement pipeline of
`process_file`. -/
def applyAllRules (content : String) : String :=
  String.mk (ALL_TABLES.foldl (fun s t => applyRules t s) content.data)

/-- The text `process_file` obtains after the conditional import insertion:
when the transformed text contains the substring `import SwiftUI` and does not
contain the substring `DesignSystem`, the first occurrence of
`import SwiftUI` is replaced by itself followed by a new line
`import DesignSystem`. -/
def insertImportStep (c : String) : String :=
  if containsStr c "import SwiftUI" && !(containsStr c "DesignSystem") then
    String.mk (replaceFirst "import SwiftUI".data "import SwiftUI\nimport DesignSystem".data c.data)
  else c

/-- The pure core of `process_file`: from the original content, the text that
ends up on disk and whether a write-back happens. The write happens exactly
when the text after the six tables differs from the original; only then is the
import-insertion step applied before writing. -/
def process_file (content : String) : String × Bool :=
  let c := applyAllRules content
  if c ≠ content then (insertImportStep c, true) else (content, false)

/-- A per-file unit of work for the main loop: the file path together with the
outcome the file system would give for the read and for the write. A
successful read carries the file content. -/
structure FileJob where
  path : String
  readRes : Except String String
  writeRes : Except String Unit
deriving Repr

/-- The error line printed by the `except` clause of `process_file`. -/
def errorLine (path err : String) : String :=
  "Error processing " ++ path ++ ": " ++ err

/-- `process_file` with its surrounding I/O and exception handling: a failing
read or a failing write is caught, one error line naming the path and the
error is printed, and the file reports as not modified. On success the
returned flag says whether the file was written. -/
def process_file_io (j : FileJob) : Bool × List String :=
  match j.readRes with
  | Except.error e => (false, [errorLine j.path e])
  | Except.ok content =>
    let r := process_file content
    if r.2 then
      match j.writeRes with
      | Except.error e => (false, [errorLine j.path e])
      | Except.ok _ => (true, [])
    else (false, [])

/-- The processing loop of `main`: process every job in order, counting the
modified files and collecting the printed error lines. Each file is an
independent unit of work; an error in one file never stops the loop. -/
def mainLoop : List FileJob → Nat × List String
  | [] => (0, [])
  | j :: rest =>
    let r := process_file_io j
    let m := mainLoop rest
    ((if r.1 then 1 else 0) + m.1, r.2 ++ m.2)

/-- The root-directory filter of `main`: a directory path is skipped when it
contains `DesignSystem.swift`, `.build` or `DerivedData` as a substring. -/
def excludedRoot (root : String) : Bool :=
  containsStr root "DesignSystem.swift" || containsStr root ".build" ||
  containsStr root "DerivedData"

/-- The file-discovery section of `main`, over an abstract directory walk
given as the list of `(root, files)` pairs that `os.walk` yields: skip the
excluded roots, and from every other root collect each file name ending in
`.swift`, joined to the root with a path separator. -/
def discoverSwiftFiles : List (String × List String) → List String
  | [] => []
  | (root, files) :: rest =>
    if excludedRoot root then discoverSwiftFiles rest
    else (files.filter (fun f => strEndsWith f ".swift")).map
           (fun f => root ++ "/" ++ f) ++ discoverSwiftFiles rest

/-- The image modes relevant to `fix_icon_alpha.py`: the two alpha-carrying
modes the script tests for, and the alpha-free modes it passes through. -/
inductive PILMode where
  | RGB
  | RGBA
  | LA
  | L
deriving DecidableEq, Repr

/-- A pixel image in the style of the PIL library: a mode, dimensions, and a
pixel map. Every pixel is carried as a quadruple `(r, g, b, a)`; for the `LA`
mode the first three components hold the luminance and the fourth the alpha,
for the alpha-free modes the fourth component is the constant 255. -/
structure PILImage where
  mode : PILMode
  width : Nat
  height : Nat
  pixel : Nat → Nat → Nat × Nat × Nat × Nat

/-- Whether the script treats the image as carrying an alpha channel:
`img.mode in ('RGBA', 'LA')`. -/
def hasAlphaMode (m : PILMode) : Bool :=
  m = PILMode.RGBA || m = PILMode.LA

/-- The alpha component of a pixel quadruple. -/
def alphaOf (p : Nat × Nat × Nat × Nat) : Nat := p.2.2.2

/-- The color components of a pixel quadruple. -/
def rgbOf (p : Nat × Nat × Nat × Nat) : Nat × Nat × Nat := (p.1, p.2.1, p.2.2.1)

/-- Modelled library operation: one channel of compositing a foreground value
`fg` over a background value `bg` with alpha `a` out of 255, with rounding to
the nearest integer as the PIL paste-with-mask blend does. At the endpoints
the formula is exact: alpha 0 gives `bg` and alpha 255 gives `fg`. -/
def blendChan (fg bg a : Nat) : Nat :=
  (fg * a + bg * (255 - a) + 127) / 255

/-- Modelled library operation: `background.paste(img, mask=alpha)` where
`background` is a fresh opaque white RGB canvas of the same size, as built by
`remove_alpha`. Every channel is composited over white with the pixel alpha
as the mask. -/
def pasteOnWhite (img : PILImage) : PILImage :=
  { mode := PILMode.RGB
    width := img.width
    height := img.height
    pixel := fun x y =>
      let p := img.pixel x y
      let a := alphaOf p
      (blendChan p.1 255 a, blendChan p.2.1 255 a, blendChan p.2.2.1 255 a, 255) }

/-- `remove_alpha` of `fix_icon_alpha.py`: an image in an alpha-carrying mode
is composited over an opaque white canvas of identical dimensions and saved
without alpha; any other image is saved unchanged (PNG saving is lossless, so
saving is the identity on the pixel data). -/
def remove_alpha (img : PILImage) : PILImage :=
  if hasAlphaMode img.mode then pasteOnWhite img else img

/-- The `__main__` section of `fix_icon_alpha.py`, abstracted over whether the
input file exists and whether the guarded transform raises: the result is the
process exit code together with whether `remove_alpha` was ever invoked (only
its save can create the output file). A missing input exits with code 1
before the transform; an exception inside the transform is caught and also
exits with code 1. -/
def fix_icon_main (inputExists : Bool) (transformRaises : Bool) : Nat × Bool :=
  if !inputExists then (1, false)
  else if transformRaises then (1, true)
  else (0, true)

/-- The two-digit decimal rendering of `n < 100`, as it appears in the
opacity table (3 renders as `03`, 15 as `15`). -/
def twoDigitStr (n : Nat) : String :=
  String.mk [Char.ofNat (48 + n / 10), Char.ofNat (48 + n % 10)]

/-- The literal opacity argument for the hundredth value `n < 100`, as the
source table writes it: `0.` followed by two digits. -/
def opacityLit (n : Nat) : String :=
  "0." ++ twoDigitStr n

/-- The multiple of 5 nearest to `n` (hundredths; no input of the table sits
at a midpoint, so rounding direction at midpoints is irrelevant). -/
def nearestFive (n : Nat) : Nat :=
  (n + 2) / 5 * 5

/-- The replacement argument the table writes for a target value `n` in
hundredths: two-digit form below 100 and `1.0` at 100. -/
def opacityTargetStr (n : Nat) : String :=
  if n = 100 then "1.0" else opacityLit n

/-- A concrete 2 by 2 test image: fully transparent at (0, 0), fully opaque
red at (1, 1), fully opaque black elsewhere. -/
def testIcon : PILImage :=
  { mode := PILMode.RGBA
    width := 2
    height := 2
    pixel := fun x y =>
      if x = 0 ∧ y = 0 then (200, 10, 10, 0)
      else if x = 1 ∧ y = 1 then (255, 0, 0, 255)
      else (0, 0, 0, 255) }

/-- Boolean check that no rule pattern of any table matches anywhere inside
the text `r`. -/
def noPatternIn (r : String) : Bool :=
  ALL_RULES.all (fun qr => !(matchesSomewhere qr.1 r.data))

/-- The distinct replacement texts of the color table. -/
def REPL_TEXTS_COLOR : List String := [
  "DesignSystem.Colors.primaryAccent", "DesignSystem.Colors.surfaceBackground",
  "DesignSystem.Colors.textSecondary", "DesignSystem.Colors.textTertiary",
  "DesignSystem.Colors.textQuaternary"
]

/-- The distinct replacement texts of the opacity table, first part. -/
def REPL_TEXTS_OP1 : List String := [
  ".opacity(0.05)", ".opacity(0.10)", ".opacity(0.15)", ".opacity(0.20)", ".opacity(0.25)"
]

/-- The distinct replacement texts of the opacity table, second part. -/
def REPL_TEXTS_OP2 : List String := [
  ".opacity(0.30)", ".opacity(0.35)", ".opacity(0.40)", ".opacity(0.45)", ".opacity(0.50)"
]

/-- The distinct replacement texts of the opacity table, third part. -/
def REPL_TEXTS_OP3 : List String := [
  ".opacity(0.55)", ".opacity(0.60)", ".opacity(0.65)", ".opacity(0.70)", ".opacity(0.75)"
]

/-- The distinct replacement texts of the opacity table, fourth part. -/
def REPL_TEXTS_OP4 : List String := [
  ".opacity(0.80)", ".opacity(0.85)", ".opacity(0.90)", ".opacity(0.95)", ".opacity(1.0)"
]

/-- The distinct replacement texts of the corner-radius table. -/
def REPL_TEXTS_CORNER : List String := [
  "cornerRadius: DesignSystem.CornerRadius.card", "cornerRadius: DesignSystem.CornerRadius.large",
  "cornerRadius: DesignSystem.CornerRadius.medium", "cornerRadius: DesignSystem.CornerRadius.small"
]

/-- The distinct replacement texts of the animation table. -/
def REPL_TEXTS_ANIM : List String := [
  "DesignSystem.Animation.springStandard", "DesignSystem.Animation.springSmooth",
  "DesignSystem.Animation.springQuick", "DesignSystem.Animation.easeQuick",
  "DesignSystem.Animation.easeStandard"
]

/-- The distinct replacement texts of the haptic table. -/
def REPL_TEXTS_HAPTIC : List String := [
  "DesignSystem.HapticFeedback.light()", "DesignSystem.HapticFeedback.medium()",
  "DesignSystem.HapticFeedback.success()", "DesignSystem.HapticFeedback.warning()",
  "DesignSystem.HapticFeedback.selection()"
]

/-- The distinct replacement texts of the padding table. -/
def REPL_TEXTS_PADDING : List String := [
  ".padding(DesignSystem.Spacing.cardPadding)", ".padding(DesignSystem.Spacing.inlinePadding)",
  ".padding(DesignSystem.Spacing.listItemPadding)",
  ".padding(.horizontal, DesignSystem.Spacing.cardPadding)",
  ".padding(.horizontal, DesignSystem.Spacing.inlinePadding)",
  ".padding(.horizontal, DesignSystem.Spacing.listItemPadding)"
]

/-- All distinct replacement texts occurring in the six rule tables. -/
def REPL_TEXTS : List String :=
  REPL_TEXTS_COLOR ++ REPL_TEXTS_OP1 ++ REPL_TEXTS_OP2 ++ REPL_TEXTS_OP3 ++
  REPL_TEXTS_OP4 ++ REPL_TEXTS_CORNER ++ REPL_TEXTS_ANIM ++ REPL_TEXTS_HAPTIC ++
  REPL_TEXTS_PADDING

/-! ## Helper lemmas -/

/-- A list is a leading segment of itself followed by anything. -/
theorem listHasPref_self_append (p b : List Char) :
    listHasPref p (p ++ b) = true := by
  induction p with
  | nil => rfl
  | cons c p ih => simp [listHasPref, ih]

/-- A leading segment of `s` is a leading segment of `s ++ t`. -/
theorem listHasPref_append_left (p s t : List Char)
    (h : listHasPref p s = true) : listHasPref p (s ++ t) = true := by
  induction p generalizing s with
  | nil => rfl
  | cons c p ih =>
    cases s with
    | nil => simp [listHasPref] at h
    | cons d s =>
      simp only [listHasPref, Bool.and_eq_true] at h
      simp [listHasPref, h.1, ih s h.2]

/-- A segment occurring in `s` occurs in `a ++ s`. -/
theorem containsSeg_append_right (p a s : List Char)
    (h : containsSeg p s = true) : containsSeg p (a ++ s) = true := by
  induction a with
  | nil => exact h
  | cons c a ih => simp [containsSeg, ih]

/-- Every list contains itself followed by anything as a segment. -/
theorem containsSeg_self_append (p b : List Char) :
    containsSeg p (p ++ b) = true := by
  cases p with
  | nil => cases b <;> simp [containsSeg, listHasPref]
  | cons c p =>
    have h1 := listHasPref_self_append (c :: p) b
    rw [List.cons_append] at h1
    simp [containsSeg, h1]

/-- If the pattern matches nowhere in the text, the fueled substitution
returns the text unchanged, whatever the fuel. -/
theorem subAllFuel_of_noMatch (p : List RItem) (r : List Char) (fuel : Nat)
    (s : List Char) (h : matchesSomewhere p s = false) :
    subAllFuel p r fuel s = s := by
  induction fuel generalizing s with
  | zero => cases s <;> rfl
  | succ fuel ih =>
    cases s with
    | nil => rfl
    | cons d s =>
      simp only [matchesSomewhere, Bool.or_eq_false_iff] at h
      have hm : matchItems p (d :: s) = none := by
        cases hx : matchItems p (d :: s) with
        | none => rfl
        | some rest => rw [hx] at h; simp at h
      simp [subAllFuel, hm, ih s h.2]

/-- If the pattern matches nowhere in the text, `re.sub` is the identity. -/
theorem subAll_of_noMatch (p : List RItem) (r : List Char) (s : List Char)
    (h : matchesSomewhere p s = false) : subAll p r s = s :=
  subAllFuel_of_noMatch p r s.length s h

/-- If no rule of a table matches anywhere in the text, applying the table is
the identity. -/
theorem applyRules_of_noMatch (rules : List Rule) (s : List Char)
    (h : ∀ pr ∈ rules, matchesSomewhere pr.1 s = false) :
    applyRules rules s = s := by
  induction rules with
  | nil => rfl
  | cons pr rules ih =>
    have h1 : subAll pr.1 pr.2.data s = s :=
      subAll_of_noMatch _ _ _ (h pr (List.mem_cons_self pr rules))
    simp only [applyRules, List.foldl_cons, h1]
    exact ih fun q hq => h q (List.mem_cons_of_mem pr hq)

/-- If no rule of any of the tables matches anywhere in the text, the whole
pipeline is the identity. -/
theorem foldTables_of_noMatch (tables : List (List Rule)) (s : List Char)
    (h : ∀ t ∈ tables, ∀ pr ∈ t, matchesSomewhere pr.1 s = false) :
    tables.foldl (fun s t => applyRules t s) s = s := by
  induction tables with
  | nil => rfl
  | cons t tables ih =>
    have h1 : applyRules t s = s :=
      applyRules_of_noMatch t s (h t (List.mem_cons_self t tables))
    simp only [List.foldl_cons, h1]
    exact ih fun u hu => h u (List.mem_cons_of_mem t hu)

/-- If no rule of any table matches anywhere in the content, `applyAllRules`
is the identity. -/
theorem applyAllRules_of_noMatch (t : String)
    (h : ∀ tb ∈ ALL_TABLES, ∀ pr ∈ tb, matchesSomewhere pr.1 t.data = false) :
    applyAllRules t = t := by
  unfold applyAllRules
  rw [foldTables_of_noMatch ALL_TABLES t.data h]

/-- `mainLoop` distributes over list append: every job is processed, and the
counts and logs accumulate independently. -/
theorem mainLoop_append (a b : List FileJob) :
    mainLoop (a ++ b) =
      ((mainLoop a).1 + (mainLoop b).1, (mainLoop a).2 ++ (mainLoop b).2) := by
  induction a with
  | nil => simp [mainLoop]
  | cons j a ih => simp [mainLoop, ih, Nat.add_assoc]

/-- The error line of a failed file names both the path and the error text as
substrings. -/
theorem errorLine_contains (path e : String) :
    containsStr (errorLine path e) path = true ∧
    containsStr (errorLine path e) e = true := by
  have hd : (errorLine path e).data =
      "Error processing ".data ++ (path.data ++ (": ".data ++ e.data)) := by
    simp [errorLine, String.data_append]
  constructor
  · show containsSeg path.data (errorLine path e).data = true
    rw [hd]
    exact containsSeg_append_right _ _ _ (containsSeg_self_append _ _)
  · show containsSeg e.data (errorLine path e).data = true
    rw [hd]
    refine containsSeg_append_right _ _ _ (containsSeg_append_right _ _ _
      (containsSeg_append_right _ _ _ ?_))
    have h0 := containsSeg_self_append e.data []
    rwa [List.append_nil] at h0

/-- A trailing segment of `f` is a trailing segment of any `r ++ f`. -/
theorem strEndsWith_append (r f u : String)
    (h : strEndsWith f u = true) : strEndsWith (r ++ f) u = true := by
  show listHasPref u.data.reverse (r ++ f).data.reverse = true
  rw [String.data_append, List.reverse_append]
  exact listHasPref_append_left _ _ _ h

/-- Compositing over white with mask value 0 yields white. -/
theorem blendChan_mask_zero (fg : Nat) : blendChan fg 255 0 = 255 := by
  unfold blendChan
  norm_num

/-- Compositing over white with mask value 255 yields the foreground value. -/
theorem blendChan_mask_full (fg : Nat) : blendChan fg 255 255 = fg := by
  unfold blendChan
  omega

/-! ## Claim theorems -/

set_option maxRecDepth 1000000

/-- C6. Opacity quantization examples: the full rule pipeline sends
`.opacity(0.13)` to `.opacity(0.15)`, leaves `.opacity(0.50)` unchanged, and
sends `.opacity(0.99)` to `.opacity(1.0)`. -/
theorem c6_opacity_examples :
    applyAllRules ".opacity(0.13)" = ".opacity(0.15)" ∧
    applyAllRules ".opacity(0.50)" = ".opacity(0.50)" ∧
    applyAllRules ".opacity(0.99)" = ".opacity(1.0)" := by
  decide

/-- C1 counterexample. The rewriter pipeline is not idempotent: on the input
`.white.opacity(0.28)` the first pass produces `.white.opacity(0.30)` (only
the opacity rule fires), and a second pass rewrites that to
`DesignSystem.Colors.textQuaternary` because the color pattern
`\.white\.opacity\(0\.3\d*\)` now matches text formed by the first-pass
replacement together with its surrounding context. -/
theorem c1_pipeline_twice_differs :
    applyAllRules (applyAllRules ".white.opacity(0.28)") ≠
      applyAllRules ".white.opacity(0.28)" := by
  decide

/-- C2. The import-insertion condition of `process_file` checks that the
substring `DesignSystem` is absent from the transformed text, which is
backwards with respect to the documented intent: a file whose transformation
introduces a `DesignSystem` reference (first input) gains no
`import DesignSystem` line, while a file changed only by an opacity rule
(second input), which references nothing from the design system, does gain
the import. -/
theorem c2_import_insertion_at_failing_inputs :
    process_file "import SwiftUI\nlet c = Color(red: 1.0, green: 0.55, blue: 0.26)\n" =
      ("import SwiftUI\nlet c = DesignSystem.Colors.primaryAccent\n", true) ∧
    containsStr "import SwiftUI\nlet c = DesignSystem.Colors.primaryAccent\n"
      "import DesignSystem" = false ∧
    process_file "import SwiftUI\nv.opacity(0.13)\n" =
      ("import SwiftUI\nimport DesignSystem\nv.opacity(0.15)\n", true) ∧
    containsStr "import SwiftUI\nimport DesignSystem\nv.opacity(0.15)\n"
      "DesignSystem." = false := by
  decide

/-- C3 counterexample. The opacity table has no rule for the two-digit value
`.opacity(0.11)`, although 11 is not a multiple of 5: no pattern in the table
matches that text anywhere. -/
theorem c3_no_rule_for_011 :
    OPACITY_REPLACEMENTS.any
      (fun r => matchesSomewhere r.1 ".opacity(0.11)".data) = false := by
  decide

/-- C3 (amended). For every two-digit decimal opacity value from .03 through
.99 that is neither a multiple of 0.05 nor has final digit 1, the opacity
table contains the explicit rule mapping it to the nearest multiple of 0.05;
the nine values with final digit 1 (.11, .21, ..., .91) have no rule — no
pattern of the table matches their text, which is what the counterexample
exhibits at .11; and no rule of the table matches any two-digit value that
is already a multiple of 0.05. -/
theorem c3_opacity_table_amended :
    (∀ n, n < 100 → (3 ≤ n ∧ n % 5 ≠ 0 ∧ n % 10 ≠ 1) →
      opRule (opacityLit n) (opacityTargetStr (nearestFive n)) ∈
        OPACITY_REPLACEMENTS) ∧
    (∀ n, n < 100 → (11 ≤ n ∧ n % 10 = 1) →
      OPACITY_REPLACEMENTS.all
        (fun r => !(matchesSomewhere r.1
          (".opacity(" ++ opacityLit n ++ ")").data)) = true) ∧
    (∀ n, n < 100 → n % 5 = 0 →
      OPACITY_REPLACEMENTS.all
        (fun r => !(matchesSomewhere r.1
          (".opacity(" ++ opacityLit n ++ ")").data)) = true) := by
  refine ⟨?_, ?_, ?_⟩ <;> decide

/-- Witness for C3 (amended): at n = 13 the table maps `.opacity(0.13)` to
the nearest multiple `.opacity(0.15)`, no rule matches the final-digit-1
value `.opacity(0.21)`, and no rule matches a text holding the
multiple-of-0.05 value `.opacity(0.50)`. -/
theorem c3_opacity_table_amended_witness :
    opRule (opacityLit 13) (opacityTargetStr (nearestFive 13)) ∈
      OPACITY_REPLACEMENTS ∧
    OPACITY_REPLACEMENTS.all
      (fun r => !(matchesSomewhere r.1
        (".opacity(" ++ opacityLit 21 ++ ")").data)) = true ∧
    OPACITY_REPLACEMENTS.all
      (fun r => !(matchesSomewhere r.1
        (".opacity(" ++ opacityLit 50 ++ ")").data)) = true :=
  ⟨c3_opacity_table_amended.1 13 (by decide) (by decide),
   c3_opacity_table_amended.2.1 21 (by decide) (by decide),
   c3_opacity_table_amended.2.2 50 (by decide) (by decide)⟩

/-- C4. Write-iff-changed invariant of `process_file`: a write-back happens
exactly when the text after the six rule tables differs from the original;
and a file matched by no rule of any table comes out textually identical with
no write. -/
theorem c4_write_iff_changed (t : String) :
    ((process_file t).2 = true ↔ applyAllRules t ≠ t) ∧
    ((∀ tb ∈ ALL_TABLES, ∀ pr ∈ tb, matchesSomewhere pr.1 t.data = false) →
      process_file t = (t, false)) := by
  constructor
  · by_cases h : applyAllRules t = t
    · simp [process_file, h]
    · simp [process_file, h]
  · intro h
    have h1 := applyAllRules_of_noMatch t h
    simp [process_file, h1]

/-- Witness for C4 at a file none of whose rules match. -/
theorem c4_write_iff_changed_witness :
    process_file "epilogue" = ("epilogue", false) :=
  (c4_write_iff_changed "epilogue").2 (by decide)

/-- C5. Per-file error recovery: a failing read, and equally a failing write
of a file the tables changed, is caught inside the per-file processor; in
each case exactly one message naming both the file path and the error text is
printed and the file reports as not modified; and the main loop still
processes every other file, its modified count and logs unchanged by the
failing entries. (The transform between read and write is pure in this
embedding and cannot fail.) -/
theorem c5_per_file_error_recovery (path e : String) (content : String)
    (w : Except String Unit) (pre post : List FileJob)
    (hc : applyAllRules content ≠ content) :
    process_file_io ⟨path, Except.error e, w⟩ = (false, [errorLine path e]) ∧
    process_file_io ⟨path, Except.ok content, Except.error e⟩ =
      (false, [errorLine path e]) ∧
    containsStr (errorLine path e) path = true ∧
    containsStr (errorLine path e) e = true ∧
    mainLoop (pre ++ ⟨path, Except.error e, w⟩ ::
        (⟨path, Except.ok content, Except.error e⟩ : FileJob) :: post) =
      ((mainLoop pre).1 + (mainLoop post).1,
       (mainLoop pre).2 ++
         errorLine path e :: errorLine path e :: (mainLoop post).2) := by
  have hmod : (process_file content).2 = true := by
    simp [process_file, hc]
  have hw : process_file_io ⟨path, Except.ok content, Except.error e⟩ =
      (false, [errorLine path e]) := by
    simp [process_file_io, hmod]
  refine ⟨rfl, hw, (errorLine_contains path e).1,
    (errorLine_contains path e).2, ?_⟩
  rw [mainLoop_append]
  simp [mainLoop, process_file_io, hmod]

/-- C7. Discoverer soundness: every path the discoverer returns ends in
`.swift`, and decomposes as an unexcluded root (its path contains none of
`DesignSystem.swift`, `.build`, `DerivedData`; so no ancestor directory of
the root does either, ancestor paths being prefixes of it) joined to a file
name ending in `.swift`. -/
theorem c7_discoverer_soundness (walk : List (String × List String))
    (p : String) (hp : p ∈ discoverSwiftFiles walk) :
    strEndsWith p ".swift" = true ∧
    ∃ root files f, (root, files) ∈ walk ∧ f ∈ files ∧
      strEndsWith f ".swift" = true ∧ excludedRoot root = false ∧
      p = root ++ "/" ++ f := by
  induction walk with
  | nil => simp [discoverSwiftFiles] at hp
  | cons rf rest ih =>
    obtain ⟨root, files⟩ := rf
    by_cases hex : excludedRoot root = true
    · rw [discoverSwiftFiles, if_pos hex] at hp
      obtain ⟨he, root', files', f, hw, hf, hsw, hexf, hpe⟩ := ih hp
      exact ⟨he, root', files', f, List.mem_cons_of_mem _ hw, hf, hsw, hexf, hpe⟩
    · rw [discoverSwiftFiles, if_neg hex] at hp
      rcases List.mem_append.mp hp with hin | hin
      · obtain ⟨f, hf, rfl⟩ := List.mem_map.mp hin
        obtain ⟨hmem, hsw⟩ := List.mem_filter.mp hf
        refine ⟨strEndsWith_append (root ++ "/") f ".swift" hsw,
          root, files, f, List.mem_cons_self _ _, hmem, hsw,
          Bool.not_eq_true _ ▸ (by simpa using hex), rfl⟩
      · obtain ⟨he, root', files', f, hw, hf, hsw, hexf, hpe⟩ := ih hin
        exact ⟨he, root', files', f, List.mem_cons_of_mem _ hw, hf, hsw, hexf, hpe⟩

/-- Witness for C7 at a concrete two-directory walk. -/
theorem c7_discoverer_soundness_witness :
    strEndsWith "base/A.swift" ".swift" = true ∧
    ∃ root files f,
      (root, files) ∈ [("base", ["A.swift", "B.txt"]), ("base/.build", ["C.swift"])] ∧
      f ∈ files ∧ strEndsWith f ".swift" = true ∧ excludedRoot root = false ∧
      "base/A.swift" = root ++ "/" ++ f :=
  c7_discoverer_soundness
    [("base", ["A.swift", "B.txt"]), ("base/.build", ["C.swift"])]
    "base/A.swift" (by decide)

/-- C8. Alpha flattening: for an image in an alpha mode the output keeps the
dimensions, is alpha-free RGB, sends every fully transparent pixel to opaque
white and keeps the color of every fully opaque pixel; an image without an
alpha mode passes through with its pixel data untouched. -/
theorem c8_remove_alpha_correct (img : PILImage) :
    (hasAlphaMode img.mode = true →
      (remove_alpha img).width = img.width ∧
      (remove_alpha img).height = img.height ∧
      (remove_alpha img).mode = PILMode.RGB ∧
      (∀ x y, alphaOf (img.pixel x y) = 0 →
        (remove_alpha img).pixel x y = (255, 255, 255, 255)) ∧
      (∀ x y, alphaOf (img.pixel x y) = 255 →
        rgbOf ((remove_alpha img).pixel x y) = rgbOf (img.pixel x y))) ∧
    (hasAlphaMode img.mode = false → remove_alpha img = img) := by
  constructor
  · intro h
    have hr : remove_alpha img = pasteOnWhite img := by
      simp [remove_alpha, h]
    rw [hr]
    refine ⟨rfl, rfl, rfl, ?_, ?_⟩
    · intro x y ha
      simp only [pasteOnWhite, alphaOf] at *
      simp [ha, blendChan_mask_zero]
    · intro x y ha
      simp only [pasteOnWhite, alphaOf, rgbOf] at *
      simp [ha, blendChan_mask_full]
  · intro h
    simp [remove_alpha, h]

/-- Witness for C8 at the concrete test image: the fully transparent pixel at
(0, 0) becomes opaque white and the fully opaque red pixel at (1, 1) keeps
its color. -/
theorem c8_remove_alpha_correct_witness :
    (remove_alpha testIcon).pixel 0 0 = (255, 255, 255, 255) ∧
    rgbOf ((remove_alpha testIcon).pixel 1 1) = rgbOf (testIcon.pixel 1 1) :=
  ⟨((c8_remove_alpha_correct testIcon).1 rfl).2.2.2.1 0 0 (by decide),
   ((c8_remove_alpha_correct testIcon).1 rfl).2.2.2.2 1 1 (by decide)⟩

/-- C9. Missing image input: whether or not the guarded transform would
raise, a missing input file makes the process exit with status 1 and the
transform (the only producer of the output file) is never invoked. -/
theorem c9_missing_input_exits_nonzero :
    fix_icon_main false false = (1, false) ∧
    fix_icon_main false true = (1, false) :=
  ⟨rfl, rfl⟩

/-- C10 (implicit). When a file changes under the rule tables but the
transformed text does not contain `import SwiftUI`, `process_file` inserts
nothing and writes back exactly the text the tables produced. -/
theorem c10_no_swiftui_import_no_insertion (t : String)
    (hchanged : applyAllRules t ≠ t)
    (himp : containsStr (applyAllRules t) "import SwiftUI" = false) :
    process_file t = (applyAllRules t, true) := by
  simp [process_file, hchanged, insertImportStep, himp]

/-- Witness for C10 at a file with a color literal and no import. -/
theorem c10_no_swiftui_import_no_insertion_witness :
    process_file "Color(red: 1.0, green: 0.55, blue: 0.26)" =
      (applyAllRules "Color(red: 1.0, green: 0.55, blue: 0.26)", true) :=
  c10_no_swiftui_import_no_insertion "Color(red: 1.0, green: 0.55, blue: 0.26)"
    (by decide) (by decide)

set_option maxHeartbeats 1000000

/-- The replacement text of every rule is one of the distinct replacement
texts. -/
theorem repl_texts_cover :
    ALL_RULES.all (fun pr => decide (pr.2 ∈ REPL_TEXTS)) = true := by
  decide

/-- No rule pattern matches inside a color replacement text. -/
theorem noPatternIn_color : REPL_TEXTS_COLOR.all noPatternIn = true := by
  decide

/-- No rule pattern matches inside an opacity replacement text (first part). -/
theorem noPatternIn_op1 : REPL_TEXTS_OP1.all noPatternIn = true := by
  decide

/-- No rule pattern matches inside an opacity replacement text (second part). -/
theorem noPatternIn_op2 : REPL_TEXTS_OP2.all noPatternIn = true := by
  decide

/-- No rule pattern matches inside an opacity replacement text (third part). -/
theorem noPatternIn_op3 : REPL_TEXTS_OP3.all noPatternIn = true := by
  decide

/-- No rule pattern matches inside an opacity replacement text (fourth part). -/
theorem noPatternIn_op4 : REPL_TEXTS_OP4.all noPatternIn = true := by
  decide

/-- No rule pattern matches inside a corner-radius replacement text. -/
theorem noPatternIn_corner : REPL_TEXTS_CORNER.all noPatternIn = true := by
  decide

/-- No rule pattern matches inside an animation replacement text. -/
theorem noPatternIn_anim : REPL_TEXTS_ANIM.all noPatternIn = true := by
  decide

/-- No rule pattern matches inside a haptic replacement text. -/
theorem noPatternIn_haptic : REPL_TEXTS_HAPTIC.all noPatternIn = true := by
  decide

/-- No rule pattern matches inside a padding replacement text. -/
theorem noPatternIn_padding : REPL_TEXTS_PADDING.all noPatternIn = true := by
  decide

/-- No rule pattern matches inside any of the distinct replacement texts. -/
theorem noPatternIn_all (r : String) (hr : r ∈ REPL_TEXTS) :
    noPatternIn r = true := by
  refine List.all_eq_true.mp ?_ r hr
  unfold REPL_TEXTS
  simp only [List.all_append, noPatternIn_color, noPatternIn_op1,
    noPatternIn_op2, noPatternIn_op3, noPatternIn_op4, noPatternIn_corner,
    noPatternIn_anim, noPatternIn_haptic, noPatternIn_padding,
    Bool.and_self]

/-- C1 (amended). No rule pattern of any table matches anywhere within any
rule replacement text taken in isolation. The pipeline is nevertheless not
idempotent on whole file texts — the two notions are not equivalent — because
a pattern can match text formed by a replacement together with adjacent
original text, as the counterexample exhibits. -/
theorem c1_replacements_match_no_pattern :
    ALL_RULES.all
      (fun pr => ALL_RULES.all
        (fun qr => !(matchesSomewhere qr.1 pr.2.data))) = true := by
  rw [List.all_eq_true]
  intro pr hpr
  have h1 : pr.2 ∈ REPL_TEXTS :=
    of_decide_eq_true (List.all_eq_true.mp repl_texts_cover pr hpr)
  exact noPatternIn_all pr.2 h1

/-- Witness for C5 at a concrete failing read job and a concrete failing
write job whose content the opacity table changes. -/
theorem c5_per_file_error_recovery_witness :
    process_file_io ⟨"a.swift", Except.error "boom", Except.ok ()⟩ =
      (false, [errorLine "a.swift" "boom"]) ∧
    process_file_io ⟨"a.swift", Except.ok ".opacity(0.13)", Except.error "boom"⟩ =
      (false, [errorLine "a.swift" "boom"]) ∧
    containsStr (errorLine "a.swift" "boom") "a.swift" = true ∧
    containsStr (errorLine "a.swift" "boom") "boom" = true ∧
    mainLoop ([] ++ (⟨"a.swift", Except.error "boom", Except.ok ()⟩ : FileJob) ::
        (⟨"a.swift", Except.ok ".opacity(0.13)", Except.error "boom"⟩ : FileJob) :: []) =
      ((mainLoop []).1 + (mainLoop []).1,
       (mainLoop []).2 ++
         errorLine "a.swift" "boom" :: errorLine "a.swift" "boom" :: (mainLoop []).2) :=
  c5_per_file_error_recovery "a.swift" "boom" ".opacity(0.13)" (Except.ok ()) [] []
    (by decide)
